import Mathlib

/-!
Verification of the blog MCP server (`blog_mcp_server.py`) against its
natural-language specification.

The Python module is shallowly embedded here.  Python strings are modelled
as `List Char` (`PyStr`); all the string operations the server uses
(`strip`, `startswith`, `endswith`, `replace`, `split`, `lower`, `title`,
substring membership, lexicographic comparison) are re-implemented with the
exact Python semantics the code relies on, by structural recursion so that
every definition evaluates inside the kernel.

Network effects (HTTP fetches, branch resolution, JSON parsing) are modelled
as explicit outcome parameters: each embedded operation takes the outcome the
network would produce and threads the module-level cache state explicitly.
Wall-clock times (Python floats from `time.time()`) are modelled as `Int`
seconds; the cache-freshness logic is pure ordering, so no float-specific
behaviour is involved.
-/

/-- Python strings, modelled as their character lists. -/
abbrev PyStr := List Char

/-- Coerce a Lean string literal to the `PyStr` model. -/
def S (s : String) : PyStr := s.data

/-- Python whitespace characters recognised by `str.strip()` and `\s`
(ASCII subset; every string the server manipulates is ASCII). -/
def isPyWs (c : Char) : Bool :=
  c = ' ' || c = '\t' || c = '\n' || c = '\x0d' || c = '\x0c' || c = '\x0b'

/-- `s.strip()`: drop whitespace from both ends. -/
def pyStrip (s : PyStr) : PyStr :=
  ((s.dropWhile isPyWs).reverse.dropWhile isPyWs).reverse

/-- `s.strip(c)` for a single-character argument: drop that character from
both ends (Python strips any number of occurrences). -/
def pyStripChar (c : Char) (s : PyStr) : PyStr :=
  ((s.dropWhile (· = c)).reverse.dropWhile (· = c)).reverse

/-- `s.startswith(p)`. -/
def pyStartsWith (s p : PyStr) : Bool :=
  match s, p with
  | _, [] => true
  | [], _ :: _ => false
  | c :: cs, q :: qs => c = q && pyStartsWith cs qs

/-- `s.endswith(p)`. -/
def pyEndsWith (s p : PyStr) : Bool :=
  pyStartsWith s.reverse p.reverse

/-- Python substring membership `p in s`.  The empty string is a substring
of everything, as in Python. -/
def pyIn (p s : PyStr) : Bool :=
  match s with
  | [] => pyStartsWith [] p
  | _ :: cs => pyStartsWith s p || pyIn p cs

/-- `s.replace(pat, rep)` for a non-empty pattern: replace every
non-overlapping occurrence, scanning left to right.  (Every pattern the
server passes to `str.replace` is non-empty; for an empty pattern this
model returns the string unchanged whereas Python interleaves.)
Implemented with a character-count fuel so it is structural and
kernel-evaluable; `fuel = s.length` always suffices because each step
consumes at least one character of the input. -/
def pyReplaceFuel (pat rep : PyStr) : Nat → PyStr → PyStr
  | 0, s => s
  | _ + 1, [] => []
  | fuel + 1, c :: cs =>
    if pat ≠ [] && pyStartsWith (c :: cs) pat then
      rep ++ pyReplaceFuel pat rep fuel ((c :: cs).drop pat.length)
    else
      c :: pyReplaceFuel pat rep fuel cs

/-- `s.replace(pat, rep)` (non-empty pattern). -/
def pyReplace (s pat rep : PyStr) : PyStr :=
  pyReplaceFuel pat rep s.length s

/-- ASCII `str.lower()` (the server only lower-cases ASCII metadata). -/
def pyLower (s : PyStr) : PyStr := s.map Char.toLower

/-- `s.split(sep)` for a single-character separator. -/
def pySplitChar (sep : Char) : PyStr → List PyStr
  | [] => [[]]
  | c :: cs =>
    if c = sep then [] :: pySplitChar sep cs
    else
      match pySplitChar sep cs with
      | [] => [[c]]
      | p :: ps => (c :: p) :: ps

/-- `s.split(sep)[-1]`: the final segment. -/
def lastSegment (sep : Char) (s : PyStr) : PyStr :=
  (pySplitChar sep s).getLastD []

/-- Python string `<` (lexicographic comparison by code point). -/
def pyStrLt : PyStr → PyStr → Bool
  | [], [] => false
  | [], _ :: _ => true
  | _ :: _, [] => false
  | a :: as, b :: bs =>
    if a.toNat < b.toNat then true
    else if a.toNat = b.toNat then pyStrLt as bs
    else false

/-- `", ".join(l)`. -/
def joinCommaSpace : List PyStr → PyStr
  | [] => []
  | [s] => s
  | s :: rest => s ++ S ", " ++ joinCommaSpace rest

/-- ASCII `str.title()`: upper-case every alphabetic character that follows
a non-alphabetic one, lower-case the rest. -/
def pyTitleCaseAux : Bool → PyStr → PyStr
  | _, [] => []
  | prevAlpha, c :: cs =>
    if c.isAlpha then
      (if prevAlpha then c.toLower else c.toUpper) :: pyTitleCaseAux true cs
    else
      c :: pyTitleCaseAux false cs

/-- ASCII `str.title()`. -/
def pyTitleCase (s : PyStr) : PyStr := pyTitleCaseAux false s

/-- First-match association-list lookup, modelling Python `dict` indexing
(`back-links.json` objects have unique keys, so first match is the value). -/
def lookupAssoc {β : Type} : List (PyStr × β) → PyStr → Option β
  | [], _ => none
  | (k, v) :: rest, key => if k = key then some v else lookupAssoc rest key

/-- `d[k] = v` on a Python dict modelled as an insertion-ordered association
list: overwrite the existing binding in place, else append at the end. -/
def setAssoc {β : Type} (key : PyStr) (v : β) : List (PyStr × β) → List (PyStr × β)
  | [] => [(key, v)]
  | (k, w) :: rest => if k = key then (key, v) :: rest else (k, w) :: setAssoc key v rest

/-! ### Configuration constants (module globals, default environment) -/

/-- `GITHUB_REPO_OWNER` default. -/
def GITHUB_REPO_OWNER : PyStr := S "idvorkin"

/-- `DEFAULT_REPO` default. -/
def DEFAULT_REPO : PyStr := S "idvorkin.github.io"

/-- `BLOG_URL` default. -/
def BLOG_URL : PyStr := S "https://idvork.in"

/-- `BACKLINKS_PATH` default. -/
def BACKLINKS_PATH : PyStr := S "back-links.json"

/-- `CACHE_DURATION = 300` seconds. -/
def CACHE_DURATION : Int := 300

/-- Decidable equality for `Except`, needed to evaluate results on concrete
inputs. -/
instance {ε α : Type} [DecidableEq ε] [DecidableEq α] : DecidableEq (Except ε α)
  | .error e, .error e' => decidable_of_iff (e = e') (by simp)
  | .error _, .ok _ => .isFalse (fun h => Except.noConfusion h)
  | .ok _, .error _ => .isFalse (fun h => Except.noConfusion h)
  | .ok a, .ok a' => decidable_of_iff (a = a') (by simp)

/-! ### Repository registry (`get_available_repos`, `validate_repo`) -/

/-- Outcome of the GitHub "list repos for user" request made for wildcard
expansion (the `GITHUB_REPOS == "*"` branch of `get_available_repos`). -/
inductive ReposFetchOutcome where
  | success (names : List PyStr)
  | httpStatus (code : Nat)
  | timeout
  | other (msg : PyStr)

/-- `get_available_repos()`.  `cached` is the module global
`_available_repos`; `githubRepos` is the `GITHUB_REPOS` environment value;
`outcome` is what the GitHub API request would return if issued (it is
consulted only on the wildcard path).  Mirrors
`blog_mcp_server.get_available_repos` line by line: a cached value is
returned as-is; the wildcard path takes every returned repository name or
maps the failure to a specific `BlogError` message; otherwise the spec
string is split on commas and each entry stripped.  Note the function never
touches `DEFAULT_REPO`. -/
def getAvailableRepos (cached : Option (List PyStr)) (githubRepos : PyStr)
    (outcome : ReposFetchOutcome) : Except PyStr (List PyStr) :=
  match cached with
  | some repos => .ok repos
  | none =>
    if githubRepos = S "*" then
      match outcome with
      | .success names => .ok names
      | .httpStatus code =>
        if code = 404 then
          .error (S "GitHub user '" ++ GITHUB_REPO_OWNER ++
            S "' not found. Check GITHUB_REPO_OWNER environment variable.")
        else if code = 403 then
          .error (S "GitHub API rate limit exceeded or access forbidden for user '" ++
            GITHUB_REPO_OWNER ++
            S "'. Try again later or use explicit repo list instead of wildcard.")
        else
          .error (S "Failed to fetch repositories from GitHub API: HTTP " ++
            Nat.toDigits 10 code)
      | .timeout =>
        .error (S "Timeout connecting to GitHub API to fetch repositories. " ++
          S "Check network connectivity or use explicit repo list.")
      | .other msg =>
        .error (S "Failed to fetch repository list: " ++ msg)
    else
      .ok ((pySplitChar ',' githubRepos).map pyStrip)

/-- `validate_repo(repo)`.  `avail` is the module global `_available_repos`
(`none` when repositories have not been loaded yet, in which case any name
passes unchecked). -/
def validateRepo (avail : Option (List PyStr)) (repo : Option PyStr) : Except PyStr PyStr :=
  match repo with
  | none => .ok DEFAULT_REPO
  | some r =>
    match avail with
    | none => .ok r
    | some repos =>
      if r ∈ repos then .ok r
      else
        .error (S "Repository '" ++ r ++
          S "' not found in configured repositories. Available repositories: " ++
          joinCommaSpace repos ++
          S ". Use list_repos tool to see available repositories or check GITHUB_REPOS environment variable.")

/-! ### Back-links data model and cache (`get_blog_data`) -/

/-- A `url_info` value: one Post Metadata record from `back-links.json`.
Every field is optional because the code reads each with `dict.get` and a
per-call-site default (`""`, `"Untitled"`, `0`, `[]`). -/
structure PostInfo where
  title : Option PyStr := none
  description : Option PyStr := none
  markdown_path : Option PyStr := none
  last_modified : Option PyStr := none
  doc_size : Option Int := none
  file_path : Option PyStr := none
  redirect_url : Option PyStr := none
  incoming_links : Option (List PyStr) := none
  outgoing_links : Option (List PyStr) := none
deriving DecidableEq

/-- A parsed back-links document: `url_info` and `redirects`, each an
insertion-ordered JSON object. -/
structure BlogData where
  url_info : List (PyStr × PostInfo) := []
  redirects : List (PyStr × PyStr) := []
deriving DecidableEq

/-- The module-level cache globals `_repo_caches` and
`_repo_cache_timestamps`. -/
structure CacheState where
  caches : List (PyStr × BlogData) := []
  timestamps : List (PyStr × Int) := []
deriving DecidableEq

/-- What the refresh attempt of `get_blog_data` (default-branch resolution,
back-links fetch, JSON parse) would produce if performed.  Each failure
constructor corresponds to one `except` clause of `get_blog_data`:
`httpStatusError` to `httpx.HTTPStatusError` (carrying the branch the
404-message interpolates), `jsonError` to `json.JSONDecodeError`,
`blogError` to a propagated `BlogError` from `get_default_branch` or
`fetch_url`, `otherError` to the final generic `except Exception`. -/
inductive RefreshOutcome where
  | success (data : BlogData)
  | httpStatusError (code : Nat) (branch : PyStr)
  | jsonError
  | blogError (msg : PyStr)
  | otherError (msg : PyStr)
deriving DecidableEq

/-- `true` exactly on the failure constructors of `RefreshOutcome`. -/
def RefreshOutcome.isFailure : RefreshOutcome → Bool
  | .success _ => false
  | _ => true

/-- Result of one `get_blog_data` call: the returned document or the raised
`BlogError` message, the cache state afterwards, and whether a refresh
(network round-trip) was attempted. -/
structure BlogDataResult where
  result : Except PyStr BlogData
  state : CacheState
  fetched : Bool
deriving DecidableEq

/-- The refresh half of `get_blog_data` (the `try`/`except` block):
on success store document and timestamp; on any failure fall back to the
previously cached document when one exists, else raise the branch-specific
`BlogError`. -/
def refreshBlogData (st : CacheState) (r : PyStr) (now : Int)
    (outcome : RefreshOutcome) (cached : Option BlogData) : BlogDataResult :=
  match outcome with
  | .success d =>
    ⟨.ok d, ⟨setAssoc r d st.caches, setAssoc r now st.timestamps⟩, true⟩
  | .httpStatusError code branch =>
    match cached with
    | some d => ⟨.ok d, st, true⟩
    | none =>
      if code = 404 then
        ⟨.error (S "Blog data file not found for repository '" ++ r ++
          S "'. The repository may not have a '" ++ BACKLINKS_PATH ++
          S "' file on branch '" ++ branch ++
          S "', or the default branch detection failed."), st, true⟩
      else if code = 403 then
        ⟨.error (S "Access forbidden to repository '" ++ r ++
          S "'. Check permissions or API rate limit."), st, true⟩
      else
        ⟨.error (S "Failed to fetch blog data: HTTP " ++ Nat.toDigits 10 code), st, true⟩
  | .jsonError =>
    match cached with
    | some d => ⟨.ok d, st, true⟩
    | none =>
      ⟨.error (S "Invalid blog data format for repository '" ++ r ++
        S "'. The " ++ BACKLINKS_PATH ++ S " file may be corrupted."), st, true⟩
  | .blogError msg =>
    match cached with
    | some d => ⟨.ok d, st, true⟩
    | none => ⟨.error msg, st, true⟩
  | .otherError msg =>
    match cached with
    | some d => ⟨.ok d, st, true⟩
    | none =>
      ⟨.error (S "Failed to fetch blog data for repository '" ++ r ++
        S "': " ++ msg), st, true⟩

/-- `get_blog_data(repo)`.  `avail` is `_available_repos` (used by the
initial `validate_repo` call), `st` the cache globals, `now` the value of
`time.time()` at entry, `outcome` what the refresh would produce.  A cached
document younger than `CACHE_DURATION` is returned without touching the
network (`fetched = false`); otherwise the refresh runs
(`refreshBlogData`). -/
def getBlogData (avail : Option (List PyStr)) (st : CacheState)
    (repo : Option PyStr) (now : Int) (outcome : RefreshOutcome) : BlogDataResult :=
  match validateRepo avail repo with
  | .error e => ⟨.error e, st, false⟩
  | .ok r =>
    match lookupAssoc st.caches r with
    | some d =>
      if now - ((lookupAssoc st.timestamps r).getD 0) < CACHE_DURATION then
        ⟨.ok d, st, false⟩
      else
        refreshBlogData st r now outcome (some d)
    | none => refreshBlogData st r now outcome none

/-! ### Blog file enumeration and Markdown parsing -/

/-- The content-directory filter shared by `get_blog_files`,
`all_blog_posts`, `blog_search` and `recent_blog_posts`: `markdown_path`
must be non-empty and start with `_d/`, `_posts/` or `td/`. -/
def inContentDir (markdownPath : PyStr) : Bool :=
  markdownPath ≠ [] &&
    (pyStartsWith markdownPath (S "_d/") ||
     pyStartsWith markdownPath (S "_posts/") ||
     pyStartsWith markdownPath (S "td/"))

/-- A Blog File descriptor, as built by `get_blog_files`. -/
structure FileInfo where
  name : PyStr
  path : PyStr
  download_url : PyStr
  html_url : PyStr
deriving DecidableEq

/-- `get_blog_files(repo)` (given an already-fetched back-links document
and resolved default branch): one descriptor per `url_info` entry whose
`markdown_path` passes the content-directory filter, in document order. -/
def getBlogFiles (repoName branch : PyStr) (data : BlogData) : List FileInfo :=
  data.url_info.filterMap fun e =>
    let markdownPath := (e.2.markdown_path).getD []
    if inContentDir markdownPath then
      some
        { name := if pyIn (S "/") markdownPath then lastSegment '/' markdownPath else markdownPath
          path := markdownPath
          download_url := S "https://raw.githubusercontent.com/" ++ GITHUB_REPO_OWNER ++
            S "/" ++ repoName ++ S "/" ++ branch ++ S "/" ++ markdownPath
          html_url := BLOG_URL ++ e.1 }
    else none

/-- A parsed Blog Post (the dict returned by `parse_markdown_content`). -/
structure BlogPost where
  title : PyStr
  url : PyStr
  content : PyStr
  excerpt : PyStr
  date : Option PyStr
  filename : PyStr
deriving DecidableEq

/-- The title scan of `parse_markdown_content`: walk the (at most 10)
lines; a stripped line starting `# ` yields its remainder stripped, a
stripped line starting `title:` yields the remainder with `title:`
occurrences removed, whitespace stripped and one layer of double then
single quotes stripped; otherwise keep scanning.  No hit leaves the
sentinel `"Untitled"`. -/
def scanTitle : List PyStr → PyStr
  | [] => S "Untitled"
  | l :: ls =>
    let line := pyStrip l
    if pyStartsWith line (S "# ") then pyStrip (line.drop 2)
    else if pyStartsWith line (S "title:") then
      pyStripChar '\'' (pyStripChar '"' (pyStrip (pyReplace line (S "title:") [])))
    else scanTitle ls

/-- The date scan of `parse_markdown_content` over (at most 20) lines. -/
def scanDate : List PyStr → Option PyStr
  | [] => none
  | l :: ls =>
    let line := pyStrip l
    if pyStartsWith line (S "date:") then
      some (pyStripChar '\'' (pyStripChar '"' (pyStrip (pyReplace line (S "date:") []))))
    else scanDate ls

/-- The remainder of a character list after its last newline, `none` when it
holds no newline.  Used to locate the end of a `\n\s*\n` regex match. -/
def afterLastNewline : PyStr → Option PyStr
  | [] => none
  | c :: cs =>
    match afterLastNewline cs with
    | some r => some r
    | none => if c = '\n' then some cs else none

/-- `re.sub(r"\n\s*\n", "\n\n", content)`: each leftmost-longest match — a
newline, then the maximal whitespace run that still ends in a newline — is
replaced by exactly two newlines, scanning left to right without re-scanning
replacements.  Fueled by the input length (each step consumes at least one
input character, so `fuel = length` suffices) to stay kernel-evaluable. -/
def pySubBlankFuel : Nat → PyStr → PyStr
  | 0, s => s
  | _ + 1, [] => []
  | fuel + 1, c :: cs =>
    if c = '\n' then
      let w := cs.takeWhile isPyWs
      match afterLastNewline w with
      | some r => '\n' :: '\n' :: pySubBlankFuel fuel (r ++ cs.drop w.length)
      | none => c :: pySubBlankFuel fuel cs
    else c :: pySubBlankFuel fuel cs

/-- `re.sub(r"\n\s*\n", "\n\n", content)`. -/
def pySubBlank (s : PyStr) : PyStr := pySubBlankFuel s.length s

/-- The filename-derived fallback title:
`name.replace(".md", "").replace("-", " ").replace("_", " ").title()`. -/
def filenameTitle (name : PyStr) : PyStr :=
  pyTitleCase (pyReplace (pyReplace (pyReplace name (S ".md") []) (S "-") (S " ")) (S "_") (S " "))

/-- `parse_markdown_content(file_info)`.  `fetched` is what
`fetch_url(download_url)` would produce: the body text, or the message of
the raised `BlogError`.  The function is total: the `except` branch returns
the "Error loading post" placeholder instead of propagating. -/
def parseMarkdownContent (f : FileInfo) (fetched : Except PyStr PyStr) : BlogPost :=
  match fetched with
  | .error e =>
    { title := S "Error loading post"
      url := f.html_url
      content := S "Error: " ++ e
      excerpt := S "Error: " ++ e
      date := none
      filename := f.name }
  | .ok md =>
    let lines := pySplitChar '\n' md
    let title0 := scanTitle (lines.take 10)
    let date := scanDate (lines.take 20)
    let title := if title0 = S "Untitled" then filenameTitle f.name else title0
    let content := pyStrip (pySubBlank md)
    let excerpt := if content.length > 200 then content.take 200 ++ S "..." else content
    { title := title.take 200
      url := f.html_url
      content := content
      excerpt := excerpt
      date := date
      filename := f.name }

/-- `format_blog_post(blog_post, prefix)` (the label argument defaults to
`"Blog Post"` at the call sites).  `date or "Unknown"` renders `None` and
the empty string as `Unknown`. -/
def formatBlogPost (p : BlogPost) (label : PyStr) : PyStr :=
  let dateStr := match p.date with
    | some d => if d = [] then S "Unknown" else d
    | none => S "Unknown"
  label ++ S ":\n\nTitle: " ++ p.title ++ S "\nURL: " ++ p.url ++
    S "\nDate: " ++ dateStr ++ S "\n\nContent:\n" ++ p.content ++ S "\n"

/-! ### `read_blog_post` -/

/-- `get_blog_post_by_markdown_path(markdown_path)`: the first enumerated
blog file with that exact path, parsed; `none` when no file matches.
`oracle` maps a `download_url` to the corresponding `fetch_url` outcome. -/
def getBlogPostByMarkdownPath (files : List FileInfo)
    (oracle : PyStr → Except PyStr PyStr) (markdownPath : PyStr) : Option BlogPost :=
  (files.find? fun f => f.path = markdownPath).map fun f =>
    parseMarkdownContent f (oracle f.download_url)

/-- The `.md` branch of `read_blog_post`'s URL resolution: linear-scan
`url_info` and take the first entry whose `markdown_path` matches any of
exact equality, suffix either way, or identical final path segment. -/
def findMdMatch (urlInfo : List (PyStr × PostInfo)) (url : PyStr) : Option PyStr :=
  match urlInfo with
  | [] => none
  | (urlPath, info) :: rest =>
    let markdownPath := (info.markdown_path).getD []
    if markdownPath ≠ [] &&
        (markdownPath = url ||
         pyEndsWith markdownPath url ||
         pyEndsWith url markdownPath ||
         lastSegment '/' url = lastSegment '/' markdownPath) then
      some urlPath
    else findMdMatch rest url

/-- The blog domain as `read_blog_post` computes it:
`BLOG_URL.replace("https://", "").replace("http://", "")`. -/
def blogDomain : PyStr :=
  pyReplace (pyReplace BLOG_URL (S "https://") []) (S "http://") []

/-- One iteration of the legacy `redirect_url` fallback loop of
`read_blog_post`: a formatted post when the entry's `redirect_url` equals
the path (with or without its leading slashes) and a post loads, else
`none` (the loop continues). -/
def legacyEntryPost (files : List FileInfo) (oracle : PyStr → Except PyStr PyStr)
    (path : PyStr) (e : PyStr × PostInfo) : Option PyStr :=
  let redirectUrl := (e.2.redirect_url).getD []
  if redirectUrl ≠ [] &&
      (redirectUrl = path || redirectUrl = path.dropWhile (· = '/')) then
    let markdownPath := (e.2.markdown_path).getD []
    if markdownPath ≠ [] then
      (getBlogPostByMarkdownPath files oracle markdownPath).map
        (formatBlogPost · (S "Blog Post (via redirect from " ++ path ++ S ")"))
    else none
  else none

/-- The legacy `redirect_url` fallback loop: first entry that yields a
post. -/
def legacyScan (files : List FileInfo) (oracle : PyStr → Except PyStr PyStr)
    (path : PyStr) : List (PyStr × PostInfo) → Option PyStr
  | [] => none
  | e :: rest =>
    match legacyEntryPost files oracle path e with
    | some out => some out
    | none => legacyScan files oracle path rest

/-- Step (a) of `read_blog_post`'s path resolution: the direct `url_info`
hit (`if path in url_info` with a non-empty `markdown_path` and a loaded
post), `none` when it falls through. -/
def directPost (data : BlogData) (files : List FileInfo)
    (oracle : PyStr → Except PyStr PyStr) (path : PyStr) : Option PyStr :=
  match lookupAssoc data.url_info path with
  | none => none
  | some info =>
    let markdownPath := (info.markdown_path).getD []
    if markdownPath ≠ [] then
      (getBlogPostByMarkdownPath files oracle markdownPath).map
        (formatBlogPost · (S "Blog Post"))
    else none

/-- Step (b): the top-level `redirects` table hit, `none` when it falls
through. -/
def redirectPost (data : BlogData) (files : List FileInfo)
    (oracle : PyStr → Except PyStr PyStr) (path : PyStr) : Option PyStr :=
  match lookupAssoc data.redirects path with
  | none => none
  | some target =>
    match lookupAssoc data.url_info target with
    | none => none
    | some info =>
      let markdownPath := (info.markdown_path).getD []
      if markdownPath ≠ [] then
        (getBlogPostByMarkdownPath files oracle markdownPath).map
          (formatBlogPost · (S "Blog Post (via redirect from " ++ path ++ S ")"))
      else none

/-- Steps (a)–(c) of `read_blog_post` once a path has been obtained:
direct `url_info` hit, then the top-level `redirects` table, then the
legacy per-entry `redirect_url` fallback, each step falling through when it
fails to produce a post; finally the not-found text. -/
def resolveFromPath (data : BlogData) (files : List FileInfo)
    (oracle : PyStr → Except PyStr PyStr) (path origUrl : PyStr) : PyStr :=
  match directPost data files oracle path with
  | some out => out
  | none =>
    match redirectPost data files oracle path with
    | some out => out
    | none =>
      match legacyScan files oracle path data.url_info with
      | some out => out
      | none => S "Blog post not found for: " ++ origUrl

/-- `read_blog_post(url)` given an already-fetched back-links document
(`get_blog_data` success is modelled by passing `data` directly; its
failure path is not involved in the claims below).  `files` are the
enumerated blog files of `data` for the resolved repository and branch. -/
def readBlogPost (data : BlogData) (files : List FileInfo)
    (oracle : PyStr → Except PyStr PyStr) (url0 : PyStr) : PyStr :=
  if pyStrip url0 = [] then S "Error: URL must be a non-empty string"
  else
    let url := pyStrip url0
    if pyStartsWith url (S "http") then
      if pyIn blogDomain url then
        let path0 := pyReplace (pyReplace url (S "https://" ++ blogDomain) [])
          (S "http://" ++ blogDomain) []
        let path := if path0 = [] then S "/" else path0
        resolveFromPath data files oracle path url
      else S "Error: URL must be from " ++ blogDomain
    else if pyIn (S ".md") url then
      match findMdMatch data.url_info url with
      | some path => resolveFromPath data files oracle path url
      | none => S "Blog post not found for markdown path: " ++ url
    else
      resolveFromPath data files oracle
        (if pyStartsWith url (S "/") then url else S "/" ++ url) url

/-! ### `blog_search` -/

/-- A tool `limit` argument as received over the transport: either a value
`int()` coerces (modelled by the coerced integer) or one on which `int()`
raises `ValueError`/`TypeError`. -/
inductive PyIntArg where
  | int (n : Int)
  | notCoercible
deriving DecidableEq

/-- `blog_search`'s limit sanitation: coerce, clamp to `[1, 20]` via
`min(max(limit, 1), 20)` when out of range, fall back to 5 when coercion
fails. -/
def sanitizeSearchLimit : PyIntArg → Int
  | .int n => if n < 1 || n > 20 then min (max n 1) 20 else n
  | .notCoercible => 5

/-- Whether a `url_info` entry is a search candidate and matches the
(already lower-cased, truncated) query: content-directory membership plus a
substring hit in the lower-cased `title` or `description`. -/
def searchHit (q : PyStr) (info : PostInfo) : Bool :=
  inContentDir ((info.markdown_path).getD []) &&
    (pyIn q (pyLower ((info.title).getD [])) ||
     pyIn q (pyLower ((info.description).getD [])))

/-- A `blog_search` result object. -/
structure SearchPost where
  title : PyStr
  url : PyStr
  description : PyStr
  last_modified : PyStr
  doc_size : Int
  markdown_path : PyStr
  file_path : PyStr
  incoming_links : List PyStr
  outgoing_links : List PyStr
  redirect_url : PyStr
deriving DecidableEq

/-- The projection of a matched `url_info` entry to a search result. -/
def projectSearch (urlPath : PyStr) (info : PostInfo) : SearchPost where
  title := (info.title).getD (S "Untitled")
  url := BLOG_URL ++ urlPath
  description := (info.description).getD []
  last_modified := (info.last_modified).getD []
  doc_size := (info.doc_size).getD 0
  markdown_path := (info.markdown_path).getD []
  file_path := (info.file_path).getD []
  incoming_links := (info.incoming_links).getD []
  outgoing_links := (info.outgoing_links).getD []
  redirect_url := (info.redirect_url).getD []

/-- The collection loop of `blog_search`: iterate `url_info` in document
order, append each hit, and break as soon as the accumulated list has
reached `limit` entries. -/
def searchLoop (q : PyStr) (limit : Int) (acc : List SearchPost) :
    List (PyStr × PostInfo) → List SearchPost
  | [] => acc
  | (urlPath, info) :: rest =>
    if searchHit q info then
      let acc' := acc ++ [projectSearch urlPath info]
      if limit ≤ (acc'.length : Int) then acc' else searchLoop q limit acc' rest
    else searchLoop q limit acc rest

/-- The JSON payload of a successful `blog_search`. -/
structure SearchOutput where
  query : PyStr
  count : Nat
  limit : Int
  posts : List SearchPost
deriving DecidableEq

/-- `blog_search(query, limit)` given an already-fetched back-links
document; `.error` carries the message of the returned JSON error object. -/
def blogSearch (query0 : PyStr) (lim : PyIntArg) (data : BlogData) :
    Except PyStr SearchOutput :=
  if pyStrip query0 = [] then
    .error (S "Search query is required and must be a non-empty string")
  else
    let limit := sanitizeSearchLimit lim
    let q := (pyLower (pyStrip query0)).take 100
    if data.url_info = [] then .error (S "No blog posts found.")
    else
      let posts := searchLoop q limit [] data.url_info
      if posts = [] then
        .error (S "No blog posts found matching '" ++ q ++ S "'")
      else .ok ⟨q, posts.length, limit, posts⟩

/-! ### `recent_blog_posts` -/

/-- `recent_blog_posts`'s limit sanitation: clamp to `[1, 50]`, fall back
to 20 when coercion fails. -/
def sanitizeRecentLimit : PyIntArg → Int
  | .int n => if n < 1 || n > 50 then min (max n 1) 50 else n
  | .notCoercible => 20

/-- A `recent_blog_posts` / `all_blog_posts` result object (the search
projection minus `incoming_links`/`outgoing_links`). -/
structure RecentPost where
  title : PyStr
  url : PyStr
  description : PyStr
  last_modified : PyStr
  doc_size : Int
  markdown_path : PyStr
  file_path : PyStr
  redirect_url : PyStr
deriving DecidableEq

/-- The projection of a candidate `url_info` entry to a recent-post
record. -/
def projectRecent (urlPath : PyStr) (info : PostInfo) : RecentPost where
  title := (info.title).getD (S "Untitled")
  url := BLOG_URL ++ urlPath
  description := (info.description).getD []
  last_modified := (info.last_modified).getD []
  doc_size := (info.doc_size).getD 0
  markdown_path := (info.markdown_path).getD []
  file_path := (info.file_path).getD []
  redirect_url := (info.redirect_url).getD []

/-- The sort key of `recent_blog_posts`: `last_modified` when truthy, else
the sentinel `"0000-00-00T00:00:00"` that orders timestamp-less posts
last. -/
def recentSortKey (p : RecentPost) : PyStr :=
  if p.last_modified ≠ [] then p.last_modified else S "0000-00-00T00:00:00"

/-- Stable descending insertion by `recentSortKey`: the new element passes
elements with strictly greater keys and stops in front of the first
less-or-equal key, so original order is kept among equal keys — exactly the
guarantee of Python's stable `list.sort(key=..., reverse=True)`. -/
def insertRecentDesc (x : RecentPost) : List RecentPost → List RecentPost
  | [] => [x]
  | y :: ys =>
    if pyStrLt (recentSortKey x) (recentSortKey y) then y :: insertRecentDesc x ys
    else x :: y :: ys

/-- Stable descending sort by `recentSortKey`, modelling
`blog_posts.sort(key=sort_key, reverse=True)`. -/
def sortRecentDesc : List RecentPost → List RecentPost
  | [] => []
  | x :: xs => insertRecentDesc x (sortRecentDesc xs)

/-- The JSON payload of a successful `recent_blog_posts`. -/
structure RecentOutput where
  count : Nat
  limit : Int
  posts : List RecentPost
deriving DecidableEq

/-- The candidate posts `recent_blog_posts` collects before sorting: every
`url_info` entry in a recognized content directory, in document order. -/
def recentCandidates (data : BlogData) : List RecentPost :=
  (data.url_info.filter fun e => inContentDir ((e.2.markdown_path).getD [])).map
    fun e => projectRecent e.1 e.2

/-- `recent_blog_posts(limit)` given an already-fetched back-links
document. -/
def recentBlogPosts (lim : PyIntArg) (data : BlogData) : Except PyStr RecentOutput :=
  let limit := sanitizeRecentLimit lim
  if data.url_info = [] then .error (S "No blog posts found.")
  else
    let posts := recentCandidates data
    if posts = [] then .error (S "No blog posts found.")
    else
      let recent := (sortRecentDesc posts).take limit.toNat
      .ok ⟨recent.length, limit, recent⟩

/-! ### `get_recent_changes` argument validation -/

/-- The request `get_recent_changes` would issue against the GitHub commits
endpoint once validation has passed: producing a `.ok` plan is the point at
which the first HTTP call happens, so every `.error` return below is
reached with no network request performed. -/
structure CommitsRequestPlan where
  repo : PyStr
  per_page : Int
  path : Option PyStr
  sinceDays : Option Int
deriving DecidableEq

/-- `get_recent_changes(path, days, commits, include_diff, repo)` up to the
commits-list request: the parameter validation chain in source order, the
`commits` defaulting/capping, repository validation (whose `BlogError` the
generic handler renders), and the query-parameter build. -/
def getRecentChangesPlan (path : Option PyStr) (days commits : Option Int)
    (includeDiff : Bool) (avail : Option (List PyStr)) (repo : Option PyStr) :
    Except PyStr CommitsRequestPlan :=
  if days.isSome && commits.isSome then
    .error (S "Error: Cannot specify both 'days' and 'commits' parameters. Choose one.")
  else if days.elim false (· ≤ 0) then
    .error (S "Error: 'days' must be a positive number.")
  else if commits.elim false (· ≤ 0) then
    .error (S "Error: 'commits' must be a positive number.")
  else if includeDiff && path.elim false (· ≠ []) &&
      pyEndsWith (path.getD []) (S "/") then
    .error (S "Error: When include_diff is true, path must be a specific file, not a directory.")
  else if includeDiff && path.elim false (· ≠ []) &&
      !pyEndsWith (path.getD []) (S ".md") then
    .error (S "Error: When include_diff is true, path must be a markdown file (ending in .md).")
  else
    let commits1 := if days.isNone && commits.isNone then some 10 else commits
    let commits2 := commits1.map fun c => if c ≠ 0 && c > 100 then 100 else c
    match validateRepo avail repo with
    | .error e => .error (S "Error getting recent changes: " ++ e)
    | .ok r =>
      .ok
      { repo := r
        per_page := match commits2 with
          | some c => if c ≠ 0 then c else 100
          | none => 100
        path := match path with
          | some p =>
            if p ≠ [] then some (if pyStartsWith p (S "/") then p.drop 1 else p)
            else none
          | none => none
        sinceDays := match days with
          | some d => if d ≠ 0 then some d else none
          | none => none }

/-! ### Concrete fixtures used by witnesses and counterexamples -/

/-- An empty back-links document. -/
def emptyBlogData : BlogData := ⟨[], []⟩

/-- A cache state holding a document for repository `blog` fetched at
time 0. -/
def cachedState : CacheState := ⟨[(S "blog", emptyBlogData)], [(S "blog", 0)]⟩

/-- Metadata for the `/42` post of the five-way resolution example. -/
def postInfo42 : PostInfo :=
  { title := some (S "Answer"), markdown_path := some (S "_d/42.md") }

/-- Metadata whose `markdown_path` shares the bare filename `42.md`. -/
def postInfoTd42 : PostInfo :=
  { title := some (S "Other"), markdown_path := some (S "td/42.md") }

/-- A back-links document whose `url_info` maps `/42` to `_d/42.md` and
nothing else. -/
def backlinksSingle : BlogData := ⟨[(S "/42", postInfo42)], []⟩

/-- A back-links document that also maps `/42` to `_d/42.md`, but whose
`url_info` lists an entry with markdown path `td/42.md` first. -/
def backlinksShadowed : BlogData :=
  ⟨[(S "/other", postInfoTd42), (S "/42", postInfo42)], []⟩

/-- Enumerated blog files of `backlinksSingle`. -/
def filesSingle : List FileInfo := getBlogFiles DEFAULT_REPO (S "main") backlinksSingle

/-- Enumerated blog files of `backlinksShadowed`. -/
def filesShadowed : List FileInfo := getBlogFiles DEFAULT_REPO (S "main") backlinksShadowed

/-- A fetch oracle serving the same small Markdown body at every URL. -/
def mdOracle : PyStr → Except PyStr PyStr := fun _ => .ok (S "# T\n\nhi")

/-- The parsed `/42` post under `mdOracle`. -/
def post42 : BlogPost :=
  parseMarkdownContent
    ⟨S "42.md", S "_d/42.md",
     S "https://raw.githubusercontent.com/idvorkin/idvorkin.github.io/main/_d/42.md",
     S "https://idvork.in/42"⟩
    (.ok (S "# T\n\nhi"))

/-- Search fixture: three matching posts across the three content
directories. -/
def searchInfoA : PostInfo :=
  { title := some (S "Ax"), markdown_path := some (S "_d/a.md") }

/-- Search fixture entry in `_posts/`. -/
def searchInfoB : PostInfo :=
  { title := some (S "bx"), markdown_path := some (S "_posts/b.md") }

/-- Search fixture entry in `td/`. -/
def searchInfoC : PostInfo :=
  { title := some (S "cx"), markdown_path := some (S "td/c.md") }

/-- Search fixture entry that sits after the limit-th match. -/
def searchInfoD : PostInfo :=
  { title := some (S "dx"), markdown_path := some (S "_d/d.md") }

/-- First segment of the search fixture document. -/
def searchEntries1 : List (PyStr × PostInfo) :=
  [(S "/a", searchInfoA), (S "/b", searchInfoB), (S "/c", searchInfoC)]

/-- Tail segment the short-circuited scan never reaches. -/
def searchEntries2 : List (PyStr × PostInfo) := [(S "/d", searchInfoD)]

/-- The search fixture document. -/
def searchData : BlogData := ⟨searchEntries1, []⟩

/-- The expected `blog_search("x", limit=2)` payload on `searchData`. -/
def searchOut : SearchOutput :=
  ⟨S "x", 2, 2, [projectSearch (S "/a") searchInfoA, projectSearch (S "/b") searchInfoB]⟩

/-- Recent-posts fixture: `last_modified = "2024-01-01"`. -/
def recentInfo1 : PostInfo :=
  { markdown_path := some (S "_d/p1.md"), last_modified := some (S "2024-01-01") }

/-- Recent-posts fixture: timestamp absent. -/
def recentInfo2 : PostInfo := { markdown_path := some (S "_d/p2.md") }

/-- Recent-posts fixture: `last_modified = "2024-01-03"`. -/
def recentInfo3 : PostInfo :=
  { markdown_path := some (S "_d/p3.md"), last_modified := some (S "2024-01-03") }

/-- The recent-posts fixture document (insertion order 01, absent, 03). -/
def recentData : BlogData :=
  ⟨[(S "/p1", recentInfo1), (S "/p2", recentInfo2), (S "/p3", recentInfo3)], []⟩

/-- The expected `recent_blog_posts(limit=20)` payload on `recentData`. -/
def recentOut : RecentOutput :=
  ⟨3, 20, [projectRecent (S "/p3") recentInfo3, projectRecent (S "/p1") recentInfo1,
    projectRecent (S "/p2") recentInfo2]⟩

/-- Modelled from the spec: the "host" of an absolute URL named by the
claim about domain checking — the text between the scheme separator and
the next slash.  (The source code has no such notion; it tests substring
membership instead, which is what the claim is measured against.) -/
def claimUrlHost (url : PyStr) : PyStr :=
  (pyReplace (pyReplace url (S "https://") []) (S "http://") []).takeWhile (· ≠ '/')

/-- An oracle that fails every fetch (the claims it serves never reach a
fetch). -/
def failOracle : PyStr → Except PyStr PyStr := fun _ => .error []

/-! ## Helper lemmas -/

/-- Writing a binding and reading it back. -/
theorem lookupAssoc_setAssoc_self {β : Type} (l : List (PyStr × β)) (k : PyStr) (v : β) :
    lookupAssoc (setAssoc k v l) k = some v := by
  induction l with
  | nil => simp [setAssoc, lookupAssoc]
  | cons e rest ih =>
    obtain ⟨k', w⟩ := e
    by_cases h : k' = k
    · simp [setAssoc, lookupAssoc, h]
    · simp [setAssoc, lookupAssoc, h, ih]

/-! ## C9: `parse_markdown_content` is total with the documented placeholder -/

/-- C9: on any fetch/parse failure, `parse_markdown_content` does not raise
but returns the placeholder Blog Post with title "Error loading post",
content and excerpt "Error: {cause}", and no date (it is a total Lean
function, so a broken post cannot abort a batched caller). -/
theorem parse_markdown_error_placeholder (f : FileInfo) (e : PyStr) :
    parseMarkdownContent f (.error e) =
      { title := S "Error loading post"
        url := f.html_url
        content := S "Error: " ++ e
        excerpt := S "Error: " ++ e
        date := none
        filename := f.name } := rfl

/-! ## C10: the extracted title "Untitled" is treated as the no-title sentinel -/

/-- C10: whenever the first-10-line scan produces exactly the string
`"Untitled"` (whether because no title line exists or because the document's
own title is literally `Untitled`), `parse_markdown_content` discards it and
uses the filename-derived title instead. -/
theorem parse_markdown_untitled_sentinel (f : FileInfo) (md : PyStr)
    (h : scanTitle ((pySplitChar '\n' md).take 10) = S "Untitled") :
    (parseMarkdownContent f (.ok md)).title = (filenameTitle f.name).take 200 := by
  simp [parseMarkdownContent, h]

/-- Witness for C10: a body whose front matter reads `title: Untitled`
yields the filename-derived title `My Post`. -/
theorem parse_markdown_untitled_sentinel_witness :
    scanTitle ((pySplitChar '\n' (S "title: Untitled\nbody")).take 10) = S "Untitled" ∧
    (parseMarkdownContent ⟨S "my-post.md", S "_d/my-post.md", S "u", S "h"⟩
        (.ok (S "title: Untitled\nbody"))).title = (filenameTitle (S "my-post.md")).take 200 :=
  ⟨by decide,
   parse_markdown_untitled_sentinel ⟨S "my-post.md", S "_d/my-post.md", S "u", S "h"⟩
     (S "title: Untitled\nbody") (by decide)⟩

/-! ## C1: stale-cache fallback in `get_blog_data` -/

/-- C1: when the refresh attempt fails (HTTP status error, malformed JSON,
propagated operational error, or any other exception), `get_blog_data`
returns the previously cached document whenever one exists for the
repository, and the failure surfaces as an error only when no prior cache
entry exists. -/
theorem get_blog_data_stale_fallback
    (avail : Option (List PyStr)) (st : CacheState) (repo : Option PyStr)
    (now : Int) (outcome : RefreshOutcome) (r : PyStr)
    (hv : validateRepo avail repo = .ok r)
    (hf : outcome.isFailure = true) :
    (∀ d, lookupAssoc st.caches r = some d →
      (getBlogData avail st repo now outcome).result = .ok d) ∧
    (lookupAssoc st.caches r = none →
      ∃ msg, (getBlogData avail st repo now outcome).result = .error msg) := by
  constructor
  · intro d hd
    simp only [getBlogData, hv, hd]
    split
    · rfl
    · cases outcome with
      | success _ => simp [RefreshOutcome.isFailure] at hf
      | httpStatusError code branch => simp [refreshBlogData]
      | jsonError => simp [refreshBlogData]
      | blogError msg => simp [refreshBlogData]
      | otherError msg => simp [refreshBlogData]
  · intro hn
    simp only [getBlogData, hv, hn]
    cases outcome with
    | success _ => simp [RefreshOutcome.isFailure] at hf
    | httpStatusError code branch =>
      simp only [refreshBlogData]
      split
      · exact ⟨_, rfl⟩
      · split
        · exact ⟨_, rfl⟩
        · exact ⟨_, rfl⟩
    | jsonError => exact ⟨_, rfl⟩
    | blogError msg => exact ⟨_, rfl⟩
    | otherError msg => exact ⟨_, rfl⟩

/-- Witness for C1: a repository whose cache entry is 1000 seconds old
still serves the cached document when the refresh hits a JSON parse
failure, and with an empty cache the same failure surfaces as an error. -/
theorem get_blog_data_stale_fallback_witness :
    (getBlogData none cachedState (some (S "blog")) 1000 .jsonError).result =
      .ok emptyBlogData ∧
    ∃ msg, (getBlogData none ⟨[], []⟩ (some (S "blog")) 1000 .jsonError).result =
      .error msg :=
  ⟨(get_blog_data_stale_fallback none cachedState (some (S "blog")) 1000 .jsonError
      (S "blog") (by decide) (by decide)).1 emptyBlogData (by decide),
   (get_blog_data_stale_fallback none ⟨[], []⟩ (some (S "blog")) 1000 .jsonError
      (S "blog") (by decide) (by decide)).2 (by decide)⟩

/-! ## C2: the 300-second freshness window -/

/-- C2: a document fetched at time `t` is served straight from the cache
(no fetch attempted, state unchanged) for any call strictly inside the
300-second window, while a call at or after `t + 300` attempts a refresh,
and a successful refresh replaces both the cache entry and its
timestamp. -/
theorem get_blog_data_freshness_window
    (avail : Option (List PyStr)) (st : CacheState) (repo : Option PyStr)
    (now : Int) (outcome : RefreshOutcome) (r : PyStr) (d : BlogData) (t : Int)
    (hv : validateRepo avail repo = .ok r)
    (hc : lookupAssoc st.caches r = some d)
    (ht : lookupAssoc st.timestamps r = some t) :
    (now - t < CACHE_DURATION →
      getBlogData avail st repo now outcome = ⟨.ok d, st, false⟩) ∧
    (CACHE_DURATION ≤ now - t →
      (getBlogData avail st repo now outcome).fetched = true) ∧
    (CACHE_DURATION ≤ now - t → ∀ d', outcome = .success d' →
      (getBlogData avail st repo now outcome).result = .ok d' ∧
      lookupAssoc (getBlogData avail st repo now outcome).state.caches r = some d' ∧
      lookupAssoc (getBlogData avail st repo now outcome).state.timestamps r = some now) := by
  refine ⟨?_, ?_, ?_⟩
  · intro hfresh
    simp [getBlogData, hv, hc, ht, hfresh]
  · intro hstale
    have : ¬ (now - t < CACHE_DURATION) := by omega
    simp only [getBlogData, hv, hc, ht, Option.getD_some, if_neg this]
    cases outcome <;> simp [refreshBlogData]
  · intro hstale d' hout
    have : ¬ (now - t < CACHE_DURATION) := by omega
    subst hout
    simp [getBlogData, hv, hc, ht, if_neg this, refreshBlogData,
      lookupAssoc_setAssoc_self]

/-- Witness for C2: with a document cached at time 0, a call at 299 serves
the cache without fetching, and a call at 300 fetches and replaces both the
entry and the timestamp. -/
theorem get_blog_data_freshness_window_witness :
    getBlogData none cachedState (some (S "blog")) 299 (.success backlinksSingle) =
      ⟨.ok emptyBlogData, cachedState, false⟩ ∧
    (getBlogData none cachedState (some (S "blog")) 300 (.success backlinksSingle)).fetched =
      true ∧
    (getBlogData none cachedState (some (S "blog")) 300 (.success backlinksSingle)).result =
      .ok backlinksSingle ∧
    lookupAssoc (getBlogData none cachedState (some (S "blog")) 300
      (.success backlinksSingle)).state.caches (S "blog") = some backlinksSingle ∧
    lookupAssoc (getBlogData none cachedState (some (S "blog")) 300
      (.success backlinksSingle)).state.timestamps (S "blog") = some 300 := by
  have h299 := get_blog_data_freshness_window none cachedState (some (S "blog")) 299
    (.success backlinksSingle) (S "blog") emptyBlogData 0 (by decide) (by decide) (by decide)
  have h300 := get_blog_data_freshness_window none cachedState (some (S "blog")) 300
    (.success backlinksSingle) (S "blog") emptyBlogData 0 (by decide) (by decide) (by decide)
  have hrepl := h300.2.2 (by decide) backlinksSingle rfl
  exact ⟨h299.1 (by decide), h300.2.1 (by decide), hrepl.1, hrepl.2.1, hrepl.2.2⟩

/-! ## C3: the resolved registry and the default repository -/

/-- Counterexample for C3: resolving the explicit configuration
`GITHUB_REPOS = "blog,docs"` yields exactly `[blog, docs]` — the configured
default repository is not appended when the explicit list omits it (the
code never touches `DEFAULT_REPO`; its environment-variable documentation
instead requires the operator to include it). -/
theorem get_available_repos_no_default_append_counterexample :
    getAvailableRepos none (S "blog,docs") (.success []) = .ok [S "blog", S "docs"] ∧
    DEFAULT_REPO ∉ [S "blog", S "docs"] := by decide

/-- C3 (amended): the resolved registry is exactly the comma-split,
whitespace-trimmed explicit list, or the wildcard-discovered names, or the
previously cached list; no default-repository insertion happens on any
path, so the default repository belongs to the registry only when the
configuration itself lists it. -/
theorem get_available_repos_resolution
    : (∀ githubRepos outcome, githubRepos ≠ S "*" →
        getAvailableRepos none githubRepos outcome =
          .ok ((pySplitChar ',' githubRepos).map pyStrip)) ∧
      (∀ names, getAvailableRepos none (S "*") (.success names) = .ok names) ∧
      (∀ cached githubRepos outcome,
        getAvailableRepos (some cached) githubRepos outcome = .ok cached) := by
  refine ⟨?_, ?_, ?_⟩
  · intro githubRepos outcome h
    simp [getAvailableRepos, h]
  · intro names
    simp [getAvailableRepos]
  · intro cached githubRepos outcome
    simp [getAvailableRepos]

/-- Witness for C3 (amended): the explicit list `"blog, docs"` resolves to
its trimmed entries, the wildcard path passes the discovered names
through, and a cached registry is returned as-is. -/
theorem get_available_repos_resolution_witness :
    getAvailableRepos none (S "blog, docs") (.success []) = .ok [S "blog", S "docs"] ∧
    getAvailableRepos none (S "*") (.success [S "a"]) = .ok [S "a"] ∧
    getAvailableRepos (some [S "z"]) (S "*") .timeout = .ok [S "z"] := by
  have h := get_available_repos_resolution
  refine ⟨?_, h.2.1 [S "a"], h.2.2 [S "z"] (S "*") .timeout⟩
  have h1 := h.1 (S "blog, docs") (.success []) (by decide)
  rw [h1]
  decide

/-! ## C8: `get_recent_changes` validates its arguments before any request -/

/-- C8: the validation chain of `get_recent_changes` runs before any HTTP
request (a `.ok` plan is the point at which the commits request would be
issued), in source order: both `days` and `commits` supplied is an error
regardless of their values; a non-positive `days` alone is an error; a
non-positive `commits` alone is an error; and with `include_diff` set and a
non-empty `path`, a path ending in `/`, or one not ending in `.md`, is an
error. -/
theorem get_recent_changes_validation :
    (∀ d c path includeDiff avail repo,
      getRecentChangesPlan path (some d) (some c) includeDiff avail repo =
        .error (S "Error: Cannot specify both 'days' and 'commits' parameters. Choose one.")) ∧
    (∀ d path includeDiff avail repo, d ≤ 0 →
      getRecentChangesPlan path (some d) none includeDiff avail repo =
        .error (S "Error: 'days' must be a positive number.")) ∧
    (∀ c path includeDiff avail repo, c ≤ 0 →
      getRecentChangesPlan path none (some c) includeDiff avail repo =
        .error (S "Error: 'commits' must be a positive number.")) ∧
    (∀ p days commits avail repo,
      (days.isSome && commits.isSome) = false →
      days.elim false (· ≤ 0) = false →
      commits.elim false (· ≤ 0) = false →
      p ≠ [] → pyEndsWith p (S "/") = true →
      getRecentChangesPlan (some p) days commits true avail repo =
        .error (S "Error: When include_diff is true, path must be a specific file, not a directory.")) ∧
    (∀ p days commits avail repo,
      (days.isSome && commits.isSome) = false →
      days.elim false (· ≤ 0) = false →
      commits.elim false (· ≤ 0) = false →
      p ≠ [] → pyEndsWith p (S "/") = false → pyEndsWith p (S ".md") = false →
      getRecentChangesPlan (some p) days commits true avail repo =
        .error (S "Error: When include_diff is true, path must be a markdown file (ending in .md).")) := by
  refine ⟨?_, ?_, ?_, ?_, ?_⟩
  · intro d c path includeDiff avail repo
    simp [getRecentChangesPlan]
  · intro d path includeDiff avail repo hd
    simp [getRecentChangesPlan, hd]
  · intro c path includeDiff avail repo hc
    simp [getRecentChangesPlan, hc]
  · intro p days commits avail repo hdc hd hc hp hslash
    simp [getRecentChangesPlan, hdc, hd, hc, hp, hslash]
  · intro p days commits avail repo hdc hd hc hp hslash hmd
    simp [getRecentChangesPlan, hdc, hd, hc, hp, hslash, hmd]

/-- Witness for C8: each validation failure evaluated on a concrete call
(`days=7, commits=10`; `days=0`; `commits=0`; diff with directory path
`_d/`; diff with non-Markdown path `_d/x.txt`) — each returns its error
text with no request planned. -/
theorem get_recent_changes_validation_witness :
    getRecentChangesPlan none (some 7) (some 10) false none none =
      .error (S "Error: Cannot specify both 'days' and 'commits' parameters. Choose one.") ∧
    getRecentChangesPlan none (some 0) none false none none =
      .error (S "Error: 'days' must be a positive number.") ∧
    getRecentChangesPlan none none (some 0) false none none =
      .error (S "Error: 'commits' must be a positive number.") ∧
    getRecentChangesPlan (some (S "_d/")) none none true none none =
      .error (S "Error: When include_diff is true, path must be a specific file, not a directory.") ∧
    getRecentChangesPlan (some (S "_d/x.txt")) none none true none none =
      .error (S "Error: When include_diff is true, path must be a markdown file (ending in .md).") := by
  have h := get_recent_changes_validation
  exact ⟨h.1 7 10 none false none none,
    h.2.1 0 none false none none (by decide),
    h.2.2.1 0 none false none none (by decide),
    h.2.2.2.1 (S "_d/") none none none none (by decide) (by decide) (by decide)
      (by decide) (by decide),
    h.2.2.2.2 (S "_d/x.txt") none none none none (by decide) (by decide) (by decide)
      (by decide) (by decide) (by decide)⟩

/-! ## C5: the `http` branch of `read_blog_post` -/

/-- A formatted post starts with the first character of its label. -/
theorem formatBlogPost_head (p : BlogPost) (lbl : PyStr) (c : Char)
    (h : lbl.head? = some c) : (formatBlogPost p lbl).head? = some c := by
  cases lbl with
  | nil => cases h
  | cons a l =>
    simp only [List.head?_cons, Option.some.injEq] at h
    subst h
    rfl

/-- A hit of the legacy `redirect_url` loop is a formatted post (with the
redirect label). -/
theorem legacyEntryPost_shape (files : List FileInfo)
    (oracle : PyStr → Except PyStr PyStr) (path : PyStr) (e : PyStr × PostInfo)
    (out : PyStr) (h : legacyEntryPost files oracle path e = some out) :
    ∃ p, out = formatBlogPost p (S "Blog Post (via redirect from " ++ path ++ S ")") := by
  simp only [legacyEntryPost] at h
  split at h
  · split at h
    · obtain ⟨p, _, hfp⟩ := Option.map_eq_some'.mp h
      exact ⟨p, hfp.symm⟩
    · cases h
  · cases h

/-- A result of the legacy scan is a formatted post. -/
theorem legacyScan_shape (files : List FileInfo)
    (oracle : PyStr → Except PyStr PyStr) (path : PyStr) :
    ∀ (l : List (PyStr × PostInfo)) (out : PyStr),
      legacyScan files oracle path l = some out →
      ∃ p, out = formatBlogPost p (S "Blog Post (via redirect from " ++ path ++ S ")") := by
  intro l
  induction l with
  | nil => intro out h; cases h
  | cons e rest ih =>
    intro out h
    rcases hle : legacyEntryPost files oracle path e with _ | out'
    · rw [legacyScan, hle] at h
      exact ih out h
    · rw [legacyScan, hle] at h
      obtain rfl : out' = out := by injection h
      exact legacyEntryPost_shape files oracle path e _ hle

/-- A hit of resolution step (a) is a formatted post. -/
theorem directPost_shape (data : BlogData) (files : List FileInfo)
    (oracle : PyStr → Except PyStr PyStr) (path : PyStr) (out : PyStr)
    (h : directPost data files oracle path = some out) :
    ∃ p, out = formatBlogPost p (S "Blog Post") := by
  unfold directPost at h
  split at h
  · cases h
  · simp only at h
    split at h
    · obtain ⟨p, _, hfp⟩ := Option.map_eq_some'.mp h
      exact ⟨p, hfp.symm⟩
    · cases h

/-- A hit of resolution step (b) is a formatted post. -/
theorem redirectPost_shape (data : BlogData) (files : List FileInfo)
    (oracle : PyStr → Except PyStr PyStr) (path : PyStr) (out : PyStr)
    (h : redirectPost data files oracle path = some out) :
    ∃ p, out = formatBlogPost p (S "Blog Post (via redirect from " ++ path ++ S ")") := by
  unfold redirectPost at h
  split at h
  · cases h
  · split at h
    · cases h
    · simp only at h
      split at h
      · obtain ⟨p, _, hfp⟩ := Option.map_eq_some'.mp h
        exact ⟨p, hfp.symm⟩
      · cases h

/-- Every outcome of the path-resolution stage of `read_blog_post` — a
formatted post, a redirect-labelled post, a legacy-redirect post, or the
not-found text — begins with the letter `B`. -/
theorem resolveFromPath_head (data : BlogData) (files : List FileInfo)
    (oracle : PyStr → Except PyStr PyStr) (path origUrl : PyStr) :
    (resolveFromPath data files oracle path origUrl).head? = some 'B' := by
  unfold resolveFromPath
  rcases hd : directPost data files oracle path with _ | out
  · rcases hr : redirectPost data files oracle path with _ | out2
    · rcases hleg : legacyScan files oracle path data.url_info with _ | out3
      · rfl
      · obtain ⟨p, hfp⟩ := legacyScan_shape files oracle path data.url_info out3 hleg
        rw [hfp]
        exact formatBlogPost_head p _ 'B' rfl
    · obtain ⟨p, hfp⟩ := redirectPost_shape data files oracle path out2 hr
      rw [hfp]
      exact formatBlogPost_head p _ 'B' rfl
  · obtain ⟨p, hfp⟩ := directPost_shape data files oracle path out hd
    rw [hfp]
    exact formatBlogPost_head p _ 'B' rfl

/-- C5 (amended): for an input starting with `http`, `read_blog_post` tests
whether the blog domain occurs as a substring anywhere in the URL (not
whether the URL's host equals it): the domain-mismatch error
`"Error: URL must be from {blog domain}"` is returned exactly when the
domain string is absent, and when it is present the lookup proceeds on the
path obtained by deleting the substrings `https://{domain}` and
`http://{domain}` (an empty remainder becoming `/`). -/
theorem read_blog_post_domain_substring_check :
    (∀ data files oracle url,
      pyStartsWith (pyStrip url) (S "http") = true →
      (readBlogPost data files oracle url = S "Error: URL must be from " ++ blogDomain ↔
        pyIn blogDomain (pyStrip url) = false)) ∧
    (∀ data files oracle url,
      pyStartsWith (pyStrip url) (S "http") = true →
      pyIn blogDomain (pyStrip url) = true →
      readBlogPost data files oracle url =
        resolveFromPath data files oracle
          (if pyReplace (pyReplace (pyStrip url) (S "https://" ++ blogDomain) [])
              (S "http://" ++ blogDomain) [] = []
           then S "/"
           else pyReplace (pyReplace (pyStrip url) (S "https://" ++ blogDomain) [])
              (S "http://" ++ blogDomain) [])
          (pyStrip url)) := by
  have hne : ∀ url, pyStartsWith (pyStrip url) (S "http") = true → ¬ (pyStrip url = []) := by
    intro url h hnil
    rw [hnil] at h
    exact absurd h (by decide)
  constructor
  · intro data files oracle url hstart
    constructor
    · intro hout
      by_contra hin
      rw [Bool.not_eq_false] at hin
      rw [readBlogPost, if_neg (hne url hstart), if_pos hstart, if_pos hin] at hout
      have hhead := congrArg List.head? hout
      rw [resolveFromPath_head] at hhead
      exact absurd hhead (by decide)
    · intro hin
      rw [readBlogPost, if_neg (hne url hstart), if_pos hstart, if_neg (by simp [hin])]
  · intro data files oracle url hstart hin
    rw [readBlogPost, if_neg (hne url hstart), if_pos hstart, if_pos hin]

/-- Witness for C5 (amended): an `http` URL on a host that does not contain
the blog domain gets the domain-mismatch error, and `https://idvork.in`
itself resolves via the root path `/`. -/
theorem read_blog_post_domain_substring_check_witness :
    readBlogPost emptyBlogData [] failOracle (S "https://nope.example/x") =
      S "Error: URL must be from " ++ blogDomain ∧
    readBlogPost emptyBlogData [] failOracle (S "https://idvork.in") =
      resolveFromPath emptyBlogData [] failOracle (S "/") (S "https://idvork.in") := by
  constructor
  · exact (read_blog_post_domain_substring_check.1 emptyBlogData [] failOracle
      (S "https://nope.example/x") (by decide)).2 (by decide)
  · have h := read_blog_post_domain_substring_check.2 emptyBlogData [] failOracle
      (S "https://idvork.in") (by decide) (by decide)
    rw [h]
    decide

/-- Counterexample for C5: `https://evil.com/idvork.in/42` has host
`evil.com`, not the blog domain, yet `read_blog_post` does not fail with
the domain-mismatch error — the code checks substring containment, not the
URL's host, so it proceeds to the (failing) lookup instead. -/
theorem read_blog_post_domain_check_counterexample :
    claimUrlHost (S "https://evil.com/idvork.in/42") ≠ blogDomain ∧
    pyStartsWith (pyStrip (S "https://evil.com/idvork.in/42")) (S "http") = true ∧
    readBlogPost emptyBlogData [] failOracle (S "https://evil.com/idvork.in/42") =
      S "Blog post not found for: https://evil.com/idvork.in/42" ∧
    readBlogPost emptyBlogData [] failOracle (S "https://evil.com/idvork.in/42") ≠
      S "Error: URL must be from " ++ blogDomain := by decide

/-! ## C4: five-way URL resolution in `read_blog_post` -/

/-- When the path hits `url_info` directly with a non-empty markdown path
and the post loads, resolution returns that formatted post, whatever the
original input was. -/
theorem resolveFromPath_direct (data : BlogData) (files : List FileInfo)
    (oracle : PyStr → Except PyStr PyStr) (path origUrl : PyStr)
    (info : PostInfo) (post : BlogPost)
    (h1 : lookupAssoc data.url_info path = some info)
    (h2 : (info.markdown_path).getD [] ≠ [])
    (h3 : getBlogPostByMarkdownPath files oracle ((info.markdown_path).getD []) = some post) :
    resolveFromPath data files oracle path origUrl = formatBlogPost post (S "Blog Post") := by
  have hd : directPost data files oracle path = some (formatBlogPost post (S "Blog Post")) := by
    unfold directPost
    rw [h1]
    simp [h2, h3]
  unfold resolveFromPath
  rw [hd]

/-- The `.md` branch of `read_blog_post`: an input that contains `.md`,
does not start with `http`, and is matched by the markdown linear scan
resolves through the found path. -/
theorem readBlogPost_md_branch (data : BlogData) (files : List FileInfo)
    (oracle : PyStr → Except PyStr PyStr) (u p : PyStr)
    (h0 : pyStrip u = u) (hne : u ≠ [])
    (hh : pyStartsWith u (S "http") = false)
    (hmd : pyIn (S ".md") u = true)
    (hfind : findMdMatch data.url_info u = some p) :
    readBlogPost data files oracle u = resolveFromPath data files oracle p u := by
  unfold readBlogPost
  rw [h0]
  simp [hne, hh, hmd, hfind]

/-- C4 (amended): given a back-links document whose `url_info` maps `/42`
to markdown path `_d/42.md`, where moreover the markdown linear scan for
`_d/42.md` and for `/42.md` finds the `/42` entry first (no earlier entry
captures the lookup, e.g. by sharing the bare filename `42.md`), and the
`_d/42.md` post loads, all five inputs `42`, `/42`,
`https://idvork.in/42`, `_d/42.md`, `/42.md` return the formatted content
of that one post. -/
theorem read_blog_post_five_way_equivalence
    (data : BlogData) (files : List FileInfo) (oracle : PyStr → Except PyStr PyStr)
    (info : PostInfo) (post : BlogPost)
    (h1 : lookupAssoc data.url_info (S "/42") = some info)
    (h2 : info.markdown_path = some (S "_d/42.md"))
    (h3 : findMdMatch data.url_info (S "_d/42.md") = some (S "/42"))
    (h4 : findMdMatch data.url_info (S "/42.md") = some (S "/42"))
    (h5 : getBlogPostByMarkdownPath files oracle (S "_d/42.md") = some post) :
    ∀ u ∈ [S "42", S "/42", S "https://idvork.in/42", S "_d/42.md", S "/42.md"],
      readBlogPost data files oracle u = formatBlogPost post (S "Blog Post") := by
  have hgd : (info.markdown_path).getD [] = S "_d/42.md" := by rw [h2]; rfl
  have hdirect : ∀ origUrl, resolveFromPath data files oracle (S "/42") origUrl =
      formatBlogPost post (S "Blog Post") := by
    intro origUrl
    refine resolveFromPath_direct data files oracle (S "/42") origUrl info post h1 ?_ ?_
    · rw [hgd]; decide
    · rw [hgd]; exact h5
  intro u hu
  simp only [List.mem_cons, List.not_mem_nil, or_false] at hu
  rcases hu with rfl | rfl | rfl | rfl | rfl
  · have e : readBlogPost data files oracle (S "42") =
        resolveFromPath data files oracle (S "/42") (S "42") := rfl
    rw [e, hdirect]
  · have e : readBlogPost data files oracle (S "/42") =
        resolveFromPath data files oracle (S "/42") (S "/42") := rfl
    rw [e, hdirect]
  · have e : readBlogPost data files oracle (S "https://idvork.in/42") =
        resolveFromPath data files oracle (S "/42") (S "https://idvork.in/42") := rfl
    rw [e, hdirect]
  · rw [readBlogPost_md_branch data files oracle (S "_d/42.md") (S "/42")
      (by decide) (by decide) (by decide) (by decide) h3, hdirect]
  · rw [readBlogPost_md_branch data files oracle (S "/42.md") (S "/42")
      (by decide) (by decide) (by decide) (by decide) h4, hdirect]

/-- Witness for C4 (amended): on the single-entry document mapping `/42` to
`_d/42.md`, all five literal inputs return the same formatted post. -/
theorem read_blog_post_five_way_equivalence_witness :
    readBlogPost backlinksSingle filesSingle mdOracle (S "42") =
      formatBlogPost post42 (S "Blog Post") ∧
    readBlogPost backlinksSingle filesSingle mdOracle (S "/42") =
      formatBlogPost post42 (S "Blog Post") ∧
    readBlogPost backlinksSingle filesSingle mdOracle (S "https://idvork.in/42") =
      formatBlogPost post42 (S "Blog Post") ∧
    readBlogPost backlinksSingle filesSingle mdOracle (S "_d/42.md") =
      formatBlogPost post42 (S "Blog Post") ∧
    readBlogPost backlinksSingle filesSingle mdOracle (S "/42.md") =
      formatBlogPost post42 (S "Blog Post") := by
  have h := read_blog_post_five_way_equivalence backlinksSingle filesSingle mdOracle
    postInfo42 post42 (by decide) (by decide) (by decide) (by decide) (by decide)
  exact ⟨h (S "42") (by decide), h (S "/42") (by decide),
    h (S "https://idvork.in/42") (by decide), h (S "_d/42.md") (by decide),
    h (S "/42.md") (by decide)⟩

/-- Counterexample for C4 as originally stated: `backlinksShadowed` maps
`/42` to `_d/42.md` (the claim's hypothesis), but because an earlier
`url_info` entry's markdown path `td/42.md` shares the bare filename
`42.md`, the input `_d/42.md` is captured by that earlier entry and returns
a different post than the input `42` does. -/
theorem read_blog_post_five_way_counterexample :
    (lookupAssoc backlinksShadowed.url_info (S "/42")).map (·.markdown_path) =
      some (some (S "_d/42.md")) ∧
    readBlogPost backlinksShadowed filesShadowed mdOracle (S "42") =
      formatBlogPost post42 (S "Blog Post") ∧
    readBlogPost backlinksShadowed filesShadowed mdOracle (S "_d/42.md") ≠
      readBlogPost backlinksShadowed filesShadowed mdOracle (S "42") := by decide

/-! ## C6: `blog_search` limit handling and short-circuit scan -/

/-- The posts the search loop would collect with no limit: matching entries
in document order, projected. -/
def matchedPosts (q : PyStr) (entries : List (PyStr × PostInfo)) : List SearchPost :=
  (entries.filter fun e => searchHit q e.2).map fun e => projectSearch e.1 e.2

/-- The sanitized search limit is at least 1. -/
theorem sanitizeSearchLimit_pos (lim : PyIntArg) : 1 ≤ sanitizeSearchLimit lim := by
  cases lim with
  | int n =>
    simp only [sanitizeSearchLimit]
    split
    · exact le_min (le_max_right n 1) (by norm_num)
    · next h =>
      simp only [Bool.or_eq_true, decide_eq_true_eq, not_or, not_lt] at h
      omega
  | notCoercible => norm_num [sanitizeSearchLimit]

/-- The search loop collects, beyond its accumulator, exactly the first
`limit - acc.length` matches in document order. -/
theorem searchLoop_eq_take (q : PyStr) (limit : Int) :
    ∀ (entries : List (PyStr × PostInfo)) (acc : List SearchPost),
      (acc.length : Int) < limit →
      searchLoop q limit acc entries =
        acc ++ (matchedPosts q entries).take (limit - acc.length).toNat := by
  intro entries
  induction entries with
  | nil => intro acc h; simp [searchLoop, matchedPosts]
  | cons e rest ih =>
    intro acc h
    obtain ⟨urlPath, info⟩ := e
    by_cases hit : searchHit q info = true
    · rw [searchLoop, if_pos hit]
      have hm : matchedPosts q ((urlPath, info) :: rest) =
          projectSearch urlPath info :: matchedPosts q rest := by
        simp [matchedPosts, hit]
      by_cases hstop : limit ≤ ((acc ++ [projectSearch urlPath info]).length : Int)
      · rw [if_pos hstop, hm]
        have : (limit - (acc.length : Int)).toNat = 1 := by
          simp only [List.length_append, List.length_cons, List.length_nil] at hstop
          omega
        rw [this]
        simp
      · rw [if_neg hstop]
        have hlt : ((acc ++ [projectSearch urlPath info]).length : Int) < limit := by
          simp only [List.length_append, List.length_cons, List.length_nil] at hstop ⊢
          omega
        rw [ih _ hlt, hm]
        have : (limit - (acc.length : Int)).toNat =
            (limit - ((acc ++ [projectSearch urlPath info]).length : Int)).toNat + 1 := by
          simp only [List.length_append, List.length_cons, List.length_nil]
          omega
        rw [this]
        simp
    · rw [searchLoop, if_neg hit]
      have hm : matchedPosts q ((urlPath, info) :: rest) = matchedPosts q rest := by
        simp [matchedPosts, hit]
      rw [ih _ h, hm]

/-- Once the matches of a prefix reach the limit, the loop never examines
the remaining entries. -/
theorem searchLoop_shortcircuit (q : PyStr) (limit : Int) :
    ∀ (l1 : List (PyStr × PostInfo)) (acc : List SearchPost)
      (l2 : List (PyStr × PostInfo)),
      (acc.length : Int) < limit →
      limit ≤ (acc.length : Int) + ((matchedPosts q l1).length : Int) →
      searchLoop q limit acc (l1 ++ l2) = searchLoop q limit acc l1 := by
  intro l1
  induction l1 with
  | nil =>
    intro acc l2 h1 h2
    simp only [matchedPosts, List.filter_nil, List.map_nil, List.length_nil,
      Int.natCast_zero, add_zero] at h2
    omega
  | cons e rest ih =>
    intro acc l2 h1 h2
    obtain ⟨urlPath, info⟩ := e
    by_cases hit : searchHit q info = true
    · rw [List.cons_append, searchLoop, if_pos hit, searchLoop, if_pos hit]
      by_cases hstop : limit ≤ ((acc ++ [projectSearch urlPath info]).length : Int)
      · rw [if_pos hstop, if_pos hstop]
      · rw [if_neg hstop, if_neg hstop]
        have hm : matchedPosts q ((urlPath, info) :: rest) =
            projectSearch urlPath info :: matchedPosts q rest := by
          simp [matchedPosts, hit]
        rw [hm] at h2
        refine ih _ l2 ?_ ?_
        · simp only [List.length_append, List.length_cons, List.length_nil] at hstop ⊢
          omega
        · simp only [List.length_append, List.length_cons, List.length_nil] at h2 ⊢
          omega
    · rw [List.cons_append, searchLoop, if_neg hit, searchLoop, if_neg hit]
      have hm : matchedPosts q ((urlPath, info) :: rest) = matchedPosts q rest := by
        simp [matchedPosts, hit]
      rw [hm] at h2
      exact ih _ l2 h1 h2

/-- C6: `blog_search`'s `limit` is coerced and clamped to `[1, 20]`
(falling back to 5 on coercion failure); a successful search echoes the
clamped limit and returns exactly the first `limit` matches of the
document-order scan over content-directory candidates whose lower-cased
title or description contains the query; and a prefix already holding
`limit` matches makes the loop ignore everything after it, so an entry
after the limit-th match is never examined. -/
theorem blog_search_limit_and_shortcircuit :
    (∀ n, sanitizeSearchLimit (.int n) = min (max n 1) 20) ∧
    sanitizeSearchLimit .notCoercible = 5 ∧
    (∀ q0 lim data out, blogSearch q0 lim data = .ok out →
      out.limit = sanitizeSearchLimit lim ∧
      out.query = (pyLower (pyStrip q0)).take 100 ∧
      out.posts = (matchedPosts out.query data.url_info).take (sanitizeSearchLimit lim).toNat ∧
      out.count = out.posts.length) ∧
    (∀ q limit l1 l2, 1 ≤ limit →
      limit ≤ ((matchedPosts q l1).length : Int) →
      searchLoop q limit [] (l1 ++ l2) = searchLoop q limit [] l1) := by
  refine ⟨?_, rfl, ?_, ?_⟩
  · intro n
    simp only [sanitizeSearchLimit]
    split
    · rfl
    · next h =>
      simp only [Bool.or_eq_true, decide_eq_true_eq, not_or, not_lt] at h
      omega
  · intro q0 lim data out h
    simp only [blogSearch] at h
    split at h
    · cases h
    · split at h
      · cases h
      · split at h
        · cases h
        · obtain rfl : (⟨(pyLower (pyStrip q0)).take 100,
              (searchLoop ((pyLower (pyStrip q0)).take 100) (sanitizeSearchLimit lim) []
                data.url_info).length,
              sanitizeSearchLimit lim,
              searchLoop ((pyLower (pyStrip q0)).take 100) (sanitizeSearchLimit lim) []
                data.url_info⟩ : SearchOutput) = out := by
            injection h
          refine ⟨rfl, rfl, ?_, rfl⟩
          have hl := searchLoop_eq_take ((pyLower (pyStrip q0)).take 100)
            (sanitizeSearchLimit lim) data.url_info []
            (by simpa using sanitizeSearchLimit_pos lim)
          simpa using hl
  · intro q limit l1 l2 h1 h2
    exact searchLoop_shortcircuit q limit l1 [] l2 (by simpa using h1) (by simpa using h2)

/-- Witness for C6: on a three-candidate document with `limit = 2` the
search returns the first two matches with limit 2 echoed, and appending a
fourth matching entry after the limit-th match leaves the scan's result
untouched. -/
theorem blog_search_limit_and_shortcircuit_witness :
    blogSearch (S "x") (.int 2) searchData = .ok searchOut ∧
    searchOut.limit = sanitizeSearchLimit (.int 2) ∧
    searchOut.posts =
      (matchedPosts searchOut.query searchData.url_info).take
        (sanitizeSearchLimit (.int 2)).toNat ∧
    searchLoop (S "x") 2 [] (searchEntries1 ++ searchEntries2) =
      searchLoop (S "x") 2 [] searchEntries1 := by
  have hok : blogSearch (S "x") (.int 2) searchData = .ok searchOut := by decide
  have h := blog_search_limit_and_shortcircuit
  have h3 := h.2.2.1 (S "x") (.int 2) searchData searchOut hok
  have h4 := h.2.2.2 (S "x") 2 searchEntries1 searchEntries2 (by decide) (by decide)
  exact ⟨hok, h3.1, h3.2.2.1, h4⟩

/-! ## C7: `recent_blog_posts` ordering -/

/-- `pyStrLt` is asymmetric. -/
theorem pyStrLt_asymm : ∀ a b : PyStr, pyStrLt a b = true → pyStrLt b a = false := by
  intro a
  induction a with
  | nil =>
    intro b h
    cases b with
    | nil => cases h
    | cons y ys => rfl
  | cons x xs ih =>
    intro b h
    cases b with
    | nil => cases h
    | cons y ys =>
      simp only [pyStrLt] at h ⊢
      by_cases hxy : x.toNat < y.toNat
      · rw [if_neg (by omega), if_neg (by omega)]
      · rw [if_neg hxy] at h
        by_cases hxey : x.toNat = y.toNat
        · rw [if_pos hxey] at h
          rw [if_neg (by omega), if_pos (by omega)]
          exact ih ys h
        · rw [if_neg hxey] at h
          cases h

/-- The complement of `pyStrLt` (i.e. the `≥` order Python sorts by) is
transitive. -/
theorem pyStrLt_false_trans :
    ∀ a b c : PyStr, pyStrLt a b = false → pyStrLt b c = false → pyStrLt a c = false := by
  intro a
  induction a with
  | nil =>
    intro b c h1 h2
    cases b with
    | nil => exact h2
    | cons y ys => cases h1
  | cons x xs ih =>
    intro b c h1 h2
    cases b with
    | nil =>
      cases c with
      | nil => rfl
      | cons z zs => cases h2
    | cons y ys =>
      cases c with
      | nil => rfl
      | cons z zs =>
        simp only [pyStrLt] at h1 h2 ⊢
        by_cases hxy : x.toNat < y.toNat
        · rw [if_pos hxy] at h1; cases h1
        · rw [if_neg hxy] at h1
          by_cases hyz : y.toNat < z.toNat
          · rw [if_pos hyz] at h2; cases h2
          · rw [if_neg hyz] at h2
            rw [if_neg (by omega)]
            by_cases hxez : x.toNat = z.toNat
            · rw [if_pos hxez]
              have hxey : x.toNat = y.toNat := by omega
              have hyez : y.toNat = z.toNat := by omega
              rw [if_pos hxey] at h1
              rw [if_pos hyez] at h2
              exact ih ys zs h1 h2
            · rw [if_neg hxez]

/-- Inserting permutes to consing. -/
theorem insertRecentDesc_perm (x : RecentPost) :
    ∀ l : List RecentPost, (insertRecentDesc x l).Perm (x :: l) := by
  intro l
  induction l with
  | nil => exact List.Perm.refl _
  | cons y ys ih =>
    rw [insertRecentDesc]
    split
    · exact (ih.cons y).trans (List.Perm.swap x y ys)
    · exact List.Perm.refl _

/-- The descending sort is a permutation of its input. -/
theorem sortRecentDesc_perm :
    ∀ l : List RecentPost, (sortRecentDesc l).Perm l := by
  intro l
  induction l with
  | nil => exact List.Perm.refl _
  | cons x xs ih =>
    exact (insertRecentDesc_perm x (sortRecentDesc xs)).trans (ih.cons x)

/-- Insertion preserves the descending pairwise invariant. -/
theorem insertRecentDesc_pairwise (x : RecentPost) :
    ∀ l : List RecentPost,
      l.Pairwise (fun a b => pyStrLt (recentSortKey a) (recentSortKey b) = false) →
      (insertRecentDesc x l).Pairwise
        (fun a b => pyStrLt (recentSortKey a) (recentSortKey b) = false) := by
  intro l
  induction l with
  | nil => intro _; exact List.pairwise_singleton _ x
  | cons y ys ih =>
    intro h
    rw [List.pairwise_cons] at h
    obtain ⟨hy, hys⟩ := h
    rw [insertRecentDesc]
    split
    · next hlt =>
      rw [List.pairwise_cons]
      refine ⟨?_, ih hys⟩
      intro z hz
      rcases List.mem_cons.mp ((insertRecentDesc_perm x ys).mem_iff.mp hz) with rfl | hz'
      · exact pyStrLt_asymm _ _ hlt
      · exact hy z hz'
    · next hlt =>
      rw [Bool.not_eq_true] at hlt
      rw [List.pairwise_cons]
      refine ⟨?_, List.pairwise_cons.mpr ⟨hy, hys⟩⟩
      intro z hz
      rcases List.mem_cons.mp hz with hzy | hz'
      · rw [hzy]; exact hlt
      · exact pyStrLt_false_trans _ _ _ hlt (hy z hz')

/-- The descending sort is pairwise-sorted: every earlier element's key is
not less than any later element's key. -/
theorem sortRecentDesc_pairwise :
    ∀ l : List RecentPost,
      (sortRecentDesc l).Pairwise
        (fun a b => pyStrLt (recentSortKey a) (recentSortKey b) = false) := by
  intro l
  induction l with
  | nil => exact List.Pairwise.nil
  | cons x xs ih => exact insertRecentDesc_pairwise x (sortRecentDesc xs) ih

/-- C7: `recent_blog_posts` selects exactly the content-directory
`url_info` entries, orders them by `last_modified` descending with
empty/absent timestamps keyed as `0000-00-00T00:00:00` (hence last among
real timestamps), truncates to the clamped limit — and on three posts with
`last_modified` `2024-01-03`, `2024-01-01` and absent returns them in the
order `2024-01-03`, `2024-01-01`, absent. -/
theorem recent_blog_posts_order :
    (∀ lim data out, recentBlogPosts lim data = .ok out →
      out.posts = (sortRecentDesc (recentCandidates data)).take (sanitizeRecentLimit lim).toNat ∧
      out.posts.Pairwise (fun a b => pyStrLt (recentSortKey a) (recentSortKey b) = false) ∧
      (∀ p ∈ out.posts, ∃ e ∈ data.url_info,
        inContentDir ((e.2.markdown_path).getD []) = true ∧ p = projectRecent e.1 e.2) ∧
      out.posts.length = min (sanitizeRecentLimit lim).toNat (recentCandidates data).length ∧
      out.count = out.posts.length) ∧
    (∃ out, recentBlogPosts (.int 20) recentData = .ok out ∧
      out.posts.map (fun p => p.last_modified) =
        [S "2024-01-03", S "2024-01-01", []]) := by
  constructor
  · intro lim data out h
    simp only [recentBlogPosts] at h
    split at h
    · cases h
    · split at h
      · cases h
      · obtain rfl :
            (⟨((sortRecentDesc (recentCandidates data)).take
                (sanitizeRecentLimit lim).toNat).length,
              sanitizeRecentLimit lim,
              (sortRecentDesc (recentCandidates data)).take
                (sanitizeRecentLimit lim).toNat⟩ : RecentOutput) = out := by
          injection h
        refine ⟨rfl, ?_, ?_, ?_, rfl⟩
        · exact List.Pairwise.sublist
            (List.take_sublist _ (sortRecentDesc (recentCandidates data)))
            (sortRecentDesc_pairwise (recentCandidates data))
        · intro p hp
          have hp1 : p ∈ sortRecentDesc (recentCandidates data) :=
            (sortRecentDesc (recentCandidates data)).take_subset _ hp
          have hp2 : p ∈ recentCandidates data :=
            (sortRecentDesc_perm (recentCandidates data)).mem_iff.mp hp1
          simp only [recentCandidates, List.mem_map, List.mem_filter] at hp2
          obtain ⟨e, ⟨he, hdir⟩, hproj⟩ := hp2
          exact ⟨e, he, hdir, hproj.symm⟩
        · rw [List.length_take, (sortRecentDesc_perm (recentCandidates data)).length_eq]
  · refine ⟨recentOut, by decide, by decide⟩

/-- Witness for C7: on the three-post fixture (inserted in the order
`2024-01-01`, absent, `2024-01-03`) the tool returns the sorted, pairwise
descending list of all three candidates. -/
theorem recent_blog_posts_order_witness :
    recentBlogPosts (.int 20) recentData = .ok recentOut ∧
    recentOut.posts.Pairwise
      (fun a b => pyStrLt (recentSortKey a) (recentSortKey b) = false) ∧
    recentOut.posts.length =
      min (sanitizeRecentLimit (.int 20)).toNat (recentCandidates recentData).length := by
  have hok : recentBlogPosts (.int 20) recentData = .ok recentOut := by decide
  have h := recent_blog_posts_order.1 (.int 20) recentData recentOut hok
  exact ⟨hok, h.2.1, h.2.2.2.1⟩
